import Mathlib

/-!
Verification of the job-scheduling service contract of the Visualize
repository.  The repository ships only the unit-test suite
(`src/something.py`); the service module `job_scheduler.services.job_service`
itself is absent, so the three operations `schedule_new_job`,
`fetch_scheduled_jobs` and `fetch_job_details` are modelled here from the
specification (sections 3, 4 and 7 of spec.md), which was written to match
the behaviour exercised by those tests.  Each operation is embedded as a
total function from an explicit store state to a result carrying the
outward outcome, the trace of calls issued on the store handle, and the
log events emitted.
-/

namespace JobScheduler

/-- Job record as in the data model: id is generated on insert; the other
attributes come from the creation request. -/
structure Job where
  id : Nat
  jobname : String
  frequency : String
  schedule_time : String
  start_date : String
  end_date : String
  user_id : Nat
deriving DecidableEq, Repr

/-- JobStatus record: outcome of an external execution of a Job, with an
implicit foreign key to the Job it belongs to. -/
structure JobStatus where
  job_id : Nat
  status : String
  execution_log : String
  start_time : String
deriving DecidableEq, Repr

/-- Job-creation request, already validated at the boundary. -/
structure JobRequest where
  jobname : String
  frequency : String
  schedule_time : String
  start_date : String
  end_date : String
  user_id : Nat
deriving DecidableEq, Repr

/-- Outward response record produced by the response-shaping collaborator:
field-for-field passthrough of a persisted Job row. -/
structure ScheduledJobResponse where
  id : Nat
  jobname : String
  frequency : String
  schedule_time : String
  start_date : String
  end_date : String
deriving DecidableEq, Repr

/-- Detail record returned by `fetch_job_details`: the Job's identity plus
the latest status information, or fixed placeholders when no JobStatus
row exists (start_time has no placeholder and is left absent). -/
structure JobDetail where
  id : Nat
  jobname : String
  status : String
  execution_log : String
  start_time : Option String
deriving DecidableEq, Repr

/-- Calls issued on the persistence handle, recorded in order.  The insert
and refresh calls carry the Job record passed to them, so record identity
across the two calls is observable in the trace. -/
inductive StoreCall where
  | insert (j : Job)
  | commit
  | refresh (j : Job)
  | rollback
  | queryAllJobs
  | queryJobFirst (jobId : Nat)
  | queryStatusFirst (jobId : Nat)
deriving DecidableEq, Repr

/-- Log events emitted through the structured logger: informational or
error severity. -/
inductive LogEvent where
  | info
  | error
deriving DecidableEq, Repr

/-- Outcome signaled to the caller: a successful structured result, or one
of the classified HTTP-style failure conditions (404 not-found, 500
internal-error). -/
inductive Outcome (α : Type) where
  | ok (a : α)
  | httpError (code : Nat)
deriving DecidableEq, Repr

/-- Store state together with the failure behaviour of the collaborators
for one call: the rows it holds, the id the database will generate for an
inserted row, and which of the fallible steps raise. -/
structure Store where
  jobs : List Job
  statuses : List JobStatus
  generatedId : Nat
  constructFails : Bool
  insertFails : Bool
  commitFails : Bool
  refreshFails : Bool
  rollbackFails : Bool
  queryFails : Bool
deriving DecidableEq, Repr

/-- Result of a `schedule_new_job` call. -/
structure ScheduleResult where
  outcome : Outcome ScheduledJobResponse
  calls : List StoreCall
  logs : List LogEvent
deriving DecidableEq, Repr

/-- Result of a `fetch_scheduled_jobs` call. -/
structure FetchJobsResult where
  outcome : Outcome (List ScheduledJobResponse)
  calls : List StoreCall
  logs : List LogEvent
deriving DecidableEq, Repr

/-- Result of a `fetch_job_details` call. -/
structure FetchDetailsResult where
  outcome : Outcome JobDetail
  calls : List StoreCall
  logs : List LogEvent
deriving DecidableEq, Repr

/-- Construction of a new Job record from the request's field mapping
(`Job(**request.model_dump())`); the id is populated only by the refresh
after commit. -/
def mkJob (req : JobRequest) : Job :=
  { id := 0
    jobname := req.jobname
    frequency := req.frequency
    schedule_time := req.schedule_time
    start_date := req.start_date
    end_date := req.end_date
    user_id := req.user_id }

/-- Response shaping: map a persisted Job row to the outward response
record, field for field. -/
def mapResponse (j : Job) : ScheduledJobResponse :=
  { id := j.id
    jobname := j.jobname
    frequency := j.frequency
    schedule_time := j.schedule_time
    start_date := j.start_date
    end_date := j.end_date }

/-- Filtered first-match lookup of a Job row by id
(`query(Job).filter(Job.id == jobId).first()`). -/
def findJob (st : Store) (jobId : Nat) : Option Job :=
  st.jobs.find? (fun j => j.id == jobId)

/-- Filtered first-match lookup of a JobStatus row by job id
(`query(JobStatus).filter(JobStatus.job_id == jobId).first()`). -/
def findStatus (st : Store) (jobId : Nat) : Option JobStatus :=
  st.statuses.find? (fun s => s.job_id == jobId)

/-- Failure path of `schedule_new_job`: the primary storage failure is
caught and logged, rollback is invoked exactly once, a rollback failure is
itself logged with error severity but never replaces the primary signal,
and the generic internal-error condition (HTTP 500) is raised. -/
def scheduleFailure (st : Store) (pre : List StoreCall) : ScheduleResult :=
  { outcome := Outcome.httpError 500
    calls := pre ++ [StoreCall.rollback]
    logs := if st.rollbackFails then [LogEvent.error, LogEvent.error] else [LogEvent.error] }

/-- Modelled from the spec: `schedule_new_job(request, db)` of the missing
module `job_scheduler.services.job_service` (spec section 4.2).  A Job
record is constructed from the request, inserted, committed and refreshed
to obtain the generated id; the persisted record is mapped to the outward
response.  Any failure during those steps takes the rollback-then-500
failure path. -/
def schedule_new_job (req : JobRequest) (st : Store) : ScheduleResult :=
  if st.constructFails then scheduleFailure st []
  else
    let job := mkJob req
    if st.insertFails then scheduleFailure st [StoreCall.insert job]
    else if st.commitFails then
      scheduleFailure st [StoreCall.insert job, StoreCall.commit]
    else if st.refreshFails then
      scheduleFailure st [StoreCall.insert job, StoreCall.commit, StoreCall.refresh job]
    else
      let persisted := { job with id := st.generatedId }
      { outcome := Outcome.ok (mapResponse persisted)
        calls := [StoreCall.insert job, StoreCall.commit, StoreCall.refresh job]
        logs := [] }

/-- Modelled from the spec: `fetch_scheduled_jobs(db)` of the missing
module `job_scheduler.services.job_service` (spec section 4.3).  Queries
all Job rows and maps each to a response in store-provided order; a store
failure is caught, logged, and re-signaled as internal-error with no
partial results. -/
def fetch_scheduled_jobs (st : Store) : FetchJobsResult :=
  if st.queryFails then
    { outcome := Outcome.httpError 500
      calls := [StoreCall.queryAllJobs]
      logs := [LogEvent.error] }
  else
    { outcome := Outcome.ok (st.jobs.map mapResponse)
      calls := [StoreCall.queryAllJobs]
      logs := [] }

/-- Modelled from the spec: `fetch_job_details(jobId, db)` of the missing
module `job_scheduler.services.job_service` (spec section 4.4).  Looks up
the Job by id, signaling not-found (HTTP 404) as an explicit branch when
absent; otherwise looks up the first matching JobStatus, substituting the
fixed placeholder values when none exists, logs an informational event and
returns the detail record.  An unexpected store failure is caught, logged,
and re-signaled as internal-error. -/
def fetch_job_details (jobId : Nat) (st : Store) : FetchDetailsResult :=
  if st.queryFails then
    { outcome := Outcome.httpError 500
      calls := [StoreCall.queryJobFirst jobId]
      logs := [LogEvent.error] }
  else
    match findJob st jobId with
    | none =>
      { outcome := Outcome.httpError 404
        calls := [StoreCall.queryJobFirst jobId]
        logs := [] }
    | some job =>
      match findStatus st jobId with
      | some s =>
        { outcome := Outcome.ok
            { id := job.id
              jobname := job.jobname
              status := s.status
              execution_log := s.execution_log
              start_time := some s.start_time }
          calls := [StoreCall.queryJobFirst jobId, StoreCall.queryStatusFirst jobId]
          logs := [LogEvent.info] }
      | none =>
        { outcome := Outcome.ok
            { id := job.id
              jobname := job.jobname
              status := "No status available"
              execution_log := "No logs available"
              start_time := none }
          calls := [StoreCall.queryJobFirst jobId, StoreCall.queryStatusFirst jobId]
          logs := [LogEvent.info] }

/-- Predicate on store calls: true exactly for the query-shaped calls,
false for the mutating or transactional calls (insert, commit, refresh,
rollback). -/
def StoreCall.isQuery : StoreCall → Bool
  | StoreCall.queryAllJobs => true
  | StoreCall.queryJobFirst _ => true
  | StoreCall.queryStatusFirst _ => true
  | _ => false

/-- Predicate picking out insert calls in a trace. -/
def StoreCall.isInsert : StoreCall → Bool
  | StoreCall.insert _ => true
  | _ => false

/-- Predicate picking out refresh calls in a trace. -/
def StoreCall.isRefresh : StoreCall → Bool
  | StoreCall.refresh _ => true
  | _ => false

/-- Some step of `schedule_new_job` before the success return raises:
Job construction, insert, commit or refresh. -/
def scheduleFails (st : Store) : Prop :=
  st.constructFails = true ∨ st.insertFails = true ∨
    st.commitFails = true ∨ st.refreshFails = true

instance (st : Store) : Decidable (scheduleFails st) := by
  unfold scheduleFails; infer_instance

/-- No step of `schedule_new_job` raises. -/
def scheduleSucceeds (st : Store) : Prop :=
  st.constructFails = false ∧ st.insertFails = false ∧
    st.commitFails = false ∧ st.refreshFails = false

instance (st : Store) : Decidable (scheduleSucceeds st) := by
  unfold scheduleSucceeds; infer_instance

/-- Predicate picking out rollback calls in a trace. -/
def StoreCall.isRollback : StoreCall → Bool
  | StoreCall.rollback => true
  | _ => false

/-- Predicate picking out commit calls in a trace. -/
def StoreCall.isCommitCall : StoreCall → Bool
  | StoreCall.commit => true
  | _ => false

/-- Sample creation request used to instantiate proved theorems. -/
def reqW : JobRequest :=
  { jobname := "test_job"
    frequency := "daily"
    schedule_time := "10:00:00"
    start_date := "2025-01-01"
    end_date := "2025-12-31"
    user_id := 1 }

/-- Sample persisted Job row with id 123. -/
def jobW : Job :=
  { id := 123
    jobname := "test_job"
    frequency := "daily"
    schedule_time := "10:00:00"
    start_date := "2025-01-01"
    end_date := "2025-12-31"
    user_id := 1 }

/-- Sample JobStatus row for job 123. -/
def statusW : JobStatus :=
  { job_id := 123
    status := "completed"
    execution_log := "success"
    start_time := "2025-06-01T10:00:00" }

/-- Store in which every collaborator succeeds and the database generates
id 123 on insert. -/
def stOk : Store :=
  { jobs := [jobW]
    statuses := [statusW]
    generatedId := 123
    constructFails := false
    insertFails := false
    commitFails := false
    refreshFails := false
    rollbackFails := false
    queryFails := false }

/-- Store in which the commit call raises and the subsequent rollback also
raises. -/
def stCommitAndRollbackFail : Store :=
  { stOk with commitFails := true, rollbackFails := true }

/-- Store holding no rows at all. -/
def stEmpty : Store :=
  { stOk with jobs := [], statuses := [] }

/-- Store holding the sample Job but no JobStatus rows. -/
def stNoStatus : Store :=
  { stOk with statuses := [] }

/-- Store whose query call raises. -/
def stQueryFails : Store :=
  { stOk with queryFails := true }

/-- C1: whenever Job construction or any store call during
`schedule_new_job` raises, rollback is invoked exactly once and the
outcome is the internal-error condition (HTTP 500); if the rollback itself
raises, that secondary failure is logged with error severity while the
internal-error condition is still signaled. -/
theorem schedule_failure_rolls_back_once_and_signals_500
    (req : JobRequest) (st : Store) (h : scheduleFails st) :
    (schedule_new_job req st).calls.countP (fun c => c.isRollback) = 1 ∧
    (schedule_new_job req st).outcome = Outcome.httpError 500 ∧
    (st.rollbackFails = true →
      LogEvent.error ∈ (schedule_new_job req st).logs ∧
      (schedule_new_job req st).outcome = Outcome.httpError 500) := by
  cases hc : st.constructFails <;> cases hi : st.insertFails <;>
    cases hm : st.commitFails <;> cases hr : st.refreshFails <;>
    simp [scheduleFails, hc, hi, hm, hr] at h <;>
    cases hb : st.rollbackFails <;>
    simp [schedule_new_job, scheduleFailure, hc, hi, hm, hr, hb,
      List.countP_cons, StoreCall.isRollback]

/-- C1 witness: with a failing commit and a failing rollback, rollback is
attempted once and the caller still receives HTTP 500 while the rollback
failure is logged. -/
theorem schedule_failure_rolls_back_once_and_signals_500_witness :
    scheduleFails stCommitAndRollbackFail ∧
    ((schedule_new_job reqW stCommitAndRollbackFail).calls.countP
        (fun c => c.isRollback) = 1 ∧
      (schedule_new_job reqW stCommitAndRollbackFail).outcome = Outcome.httpError 500 ∧
      (stCommitAndRollbackFail.rollbackFails = true →
        LogEvent.error ∈ (schedule_new_job reqW stCommitAndRollbackFail).logs ∧
        (schedule_new_job reqW stCommitAndRollbackFail).outcome =
          Outcome.httpError 500)) :=
  ⟨by decide,
    schedule_failure_rolls_back_once_and_signals_500 reqW stCommitAndRollbackFail
      (by decide)⟩

/-- C2: for a jobId whose Job row exists, `fetch_job_details` returns the
placeholder status and log strings when no JobStatus row matches, and the
matching row's literal `status` and `execution_log` values (logging an
informational event) when one does; in both cases the record carries the
Job's id and jobname. -/
theorem fetch_job_details_found_maps_status
    (jobId : Nat) (st : Store) (job : Job)
    (hq : st.queryFails = false) (hj : findJob st jobId = some job) :
    (findStatus st jobId = none →
      (fetch_job_details jobId st).outcome = Outcome.ok
        { id := job.id
          jobname := job.jobname
          status := "No status available"
          execution_log := "No logs available"
          start_time := none }) ∧
    (∀ s : JobStatus, findStatus st jobId = some s →
      (fetch_job_details jobId st).outcome = Outcome.ok
        { id := job.id
          jobname := job.jobname
          status := s.status
          execution_log := s.execution_log
          start_time := some s.start_time } ∧
      LogEvent.info ∈ (fetch_job_details jobId st).logs) := by
  constructor
  · intro hs
    simp [fetch_job_details, hq, hj, hs]
  · intro s hs
    simp [fetch_job_details, hq, hj, hs]

/-- C2 witness: job 123 with a stored status yields its literal values,
and the same job with no status rows yields the placeholders. -/
theorem fetch_job_details_found_maps_status_witness :
    (stOk.queryFails = false ∧ findJob stOk 123 = some jobW ∧
      ((fetch_job_details 123 stOk).outcome = Outcome.ok
          { id := jobW.id
            jobname := jobW.jobname
            status := statusW.status
            execution_log := statusW.execution_log
            start_time := some statusW.start_time } ∧
        LogEvent.info ∈ (fetch_job_details 123 stOk).logs)) ∧
    (stNoStatus.queryFails = false ∧ findJob stNoStatus 123 = some jobW ∧
      (fetch_job_details 123 stNoStatus).outcome = Outcome.ok
        { id := jobW.id
          jobname := jobW.jobname
          status := "No status available"
          execution_log := "No logs available"
          start_time := none }) :=
  ⟨⟨by decide, by decide,
      (fetch_job_details_found_maps_status 123 stOk jobW (by decide)
        (by decide)).2 statusW (by decide)⟩,
    ⟨by decide, by decide,
      (fetch_job_details_found_maps_status 123 stNoStatus jobW (by decide)
        (by decide)).1 (by decide)⟩⟩

/-- C3: for every valid creation request, when no collaborator fails,
`schedule_new_job` returns a response reflecting the newly assigned id and
the persisted attributes, and the store receives exactly one insert, one
commit and one refresh, with commit and refresh after the insert (fixed by
the literal trace). -/
theorem schedule_success_response_and_trace
    (req : JobRequest) (st : Store) (h : scheduleSucceeds st) :
    (schedule_new_job req st).outcome = Outcome.ok
      { id := st.generatedId
        jobname := req.jobname
        frequency := req.frequency
        schedule_time := req.schedule_time
        start_date := req.start_date
        end_date := req.end_date } ∧
    (schedule_new_job req st).calls =
      [StoreCall.insert (mkJob req), StoreCall.commit,
        StoreCall.refresh (mkJob req)] ∧
    (schedule_new_job req st).calls.countP (fun c => c.isInsert) = 1 ∧
    (schedule_new_job req st).calls.countP (fun c => c.isCommitCall) = 1 ∧
    (schedule_new_job req st).calls.countP (fun c => c.isRefresh) = 1 := by
  obtain ⟨hc, hi, hm, hr⟩ := h
  simp [schedule_new_job, hc, hi, hm, hr, mkJob, mapResponse,
    List.countP_cons, StoreCall.isInsert, StoreCall.isCommitCall,
    StoreCall.isRefresh]

/-- C3 witness: the sample request against the all-succeeding store yields
the persisted response with generated id 123 and the single
insert-commit-refresh trace. -/
theorem schedule_success_response_and_trace_witness :
    scheduleSucceeds stOk ∧
    ((schedule_new_job reqW stOk).outcome = Outcome.ok
        { id := stOk.generatedId
          jobname := reqW.jobname
          frequency := reqW.frequency
          schedule_time := reqW.schedule_time
          start_date := reqW.start_date
          end_date := reqW.end_date } ∧
      (schedule_new_job reqW stOk).calls =
        [StoreCall.insert (mkJob reqW), StoreCall.commit,
          StoreCall.refresh (mkJob reqW)] ∧
      (schedule_new_job reqW stOk).calls.countP (fun c => c.isInsert) = 1 ∧
      (schedule_new_job reqW stOk).calls.countP (fun c => c.isCommitCall) = 1 ∧
      (schedule_new_job reqW stOk).calls.countP (fun c => c.isRefresh) = 1) :=
  ⟨by decide, schedule_success_response_and_trace reqW stOk (by decide)⟩

/-- C4: for a jobId with no matching Job row, `fetch_job_details` signals
the not-found condition (HTTP 404), which is distinct from internal-error
(HTTP 500), and is raised as a normal branch rather than inferred from a
storage exception: no error is logged on this path. -/
theorem fetch_job_details_not_found_signals_404
    (jobId : Nat) (st : Store)
    (hq : st.queryFails = false) (hj : findJob st jobId = none) :
    (fetch_job_details jobId st).outcome = Outcome.httpError 404 ∧
    (fetch_job_details jobId st).outcome ≠ Outcome.httpError 500 ∧
    (fetch_job_details jobId st).logs = [] := by
  simp [fetch_job_details, hq, hj]

/-- C4 witness: id 999 is absent from the sample store, so the call
signals 404, not 500, and logs nothing. -/
theorem fetch_job_details_not_found_signals_404_witness :
    stOk.queryFails = false ∧ findJob stOk 999 = none ∧
    ((fetch_job_details 999 stOk).outcome = Outcome.httpError 404 ∧
      (fetch_job_details 999 stOk).outcome ≠ Outcome.httpError 500 ∧
      (fetch_job_details 999 stOk).logs = []) :=
  ⟨by decide, by decide,
    fetch_job_details_not_found_signals_404 999 stOk (by decide) (by decide)⟩

/-- C5: `fetch_scheduled_jobs` on a store with zero Job rows returns the
empty sequence with no error logged; in general it returns exactly one
mapped response per stored row, in the store-provided order, so the
result has the same length as the row list. -/
theorem fetch_scheduled_jobs_maps_rows_in_order
    (st : Store) (hq : st.queryFails = false) :
    (st.jobs = [] →
      (fetch_scheduled_jobs st).outcome = Outcome.ok []) ∧
    (fetch_scheduled_jobs st).outcome = Outcome.ok (st.jobs.map mapResponse) ∧
    (st.jobs.map mapResponse).length = st.jobs.length ∧
    (∀ i : Nat, ∀ hi : i < st.jobs.length,
      (st.jobs.map mapResponse).get ⟨i, by simpa using hi⟩ =
        mapResponse (st.jobs.get ⟨i, hi⟩)) ∧
    (fetch_scheduled_jobs st).logs = [] := by
  refine ⟨?_, ?_, ?_, ?_, ?_⟩
  · intro he
    simp [fetch_scheduled_jobs, hq, he]
  · simp [fetch_scheduled_jobs, hq]
  · simp
  · intro i hi
    simp
  · simp [fetch_scheduled_jobs, hq]

/-- C5 witness: the empty store yields the empty sequence, and the
one-row sample store yields one mapped response per row. -/
theorem fetch_scheduled_jobs_maps_rows_in_order_witness :
    (stEmpty.queryFails = false ∧
      (fetch_scheduled_jobs stEmpty).outcome = Outcome.ok []) ∧
    (stOk.queryFails = false ∧
      (fetch_scheduled_jobs stOk).outcome = Outcome.ok (stOk.jobs.map mapResponse) ∧
      (stOk.jobs.map mapResponse).length = stOk.jobs.length) :=
  ⟨⟨by decide,
      (fetch_scheduled_jobs_maps_rows_in_order stEmpty (by decide)).1 (by decide)⟩,
    ⟨by decide,
      (fetch_scheduled_jobs_maps_rows_in_order stOk (by decide)).2.1,
      (fetch_scheduled_jobs_maps_rows_in_order stOk (by decide)).2.2.1⟩⟩

/-- C6: when the store's query-all call raises during
`fetch_scheduled_jobs`, the operation logs an error and signals the
internal-error condition; no (partial) result list is returned. -/
theorem fetch_scheduled_jobs_failure_signals_500
    (st : Store) (hq : st.queryFails = true) :
    (fetch_scheduled_jobs st).outcome = Outcome.httpError 500 ∧
    LogEvent.error ∈ (fetch_scheduled_jobs st).logs ∧
    ∀ rs : List ScheduledJobResponse,
      (fetch_scheduled_jobs st).outcome ≠ Outcome.ok rs := by
  simp [fetch_scheduled_jobs, hq]

/-- C6 witness: a store whose query raises produces HTTP 500, an error
log, and no result list. -/
theorem fetch_scheduled_jobs_failure_signals_500_witness :
    stQueryFails.queryFails = true ∧
    ((fetch_scheduled_jobs stQueryFails).outcome = Outcome.httpError 500 ∧
      LogEvent.error ∈ (fetch_scheduled_jobs stQueryFails).logs ∧
      ∀ rs : List ScheduledJobResponse,
        (fetch_scheduled_jobs stQueryFails).outcome ≠ Outcome.ok rs) :=
  ⟨by decide, fetch_scheduled_jobs_failure_signals_500 stQueryFails (by decide)⟩

/-- C7: when the store's query call raises during `fetch_job_details`
(as opposed to the row-not-found branch), the failure is caught, logged
with error severity, and re-signaled as the internal-error condition; the
outcome is always one of the classified conditions, never a raw escape,
and in particular never a success record on this path. -/
theorem fetch_job_details_failure_signals_500
    (jobId : Nat) (st : Store) (hq : st.queryFails = true) :
    (fetch_job_details jobId st).outcome = Outcome.httpError 500 ∧
    LogEvent.error ∈ (fetch_job_details jobId st).logs ∧
    ∀ d : JobDetail, (fetch_job_details jobId st).outcome ≠ Outcome.ok d := by
  simp [fetch_job_details, hq]

/-- C7 witness: a raising query during details fetch for id 123 yields
HTTP 500 with an error log and no detail record. -/
theorem fetch_job_details_failure_signals_500_witness :
    stQueryFails.queryFails = true ∧
    ((fetch_job_details 123 stQueryFails).outcome = Outcome.httpError 500 ∧
      LogEvent.error ∈ (fetch_job_details 123 stQueryFails).logs ∧
      ∀ d : JobDetail,
        (fetch_job_details 123 stQueryFails).outcome ≠ Outcome.ok d) :=
  ⟨by decide, fetch_job_details_failure_signals_500 123 stQueryFails (by decide)⟩

/-- C8: a `fetch_job_details` call for a jobId absent from the store
signals not-found and attempts no store mutation: every call issued on
the store handle during the call is a query (no insert, commit or
rollback). -/
theorem fetch_job_details_not_found_no_mutation
    (jobId : Nat) (st : Store)
    (hq : st.queryFails = false) (hj : findJob st jobId = none) :
    (fetch_job_details jobId st).outcome = Outcome.httpError 404 ∧
    ∀ c ∈ (fetch_job_details jobId st).calls, c.isQuery = true := by
  constructor
  · simp [fetch_job_details, hq, hj]
  · intro c hc
    simp [fetch_job_details, hq, hj] at hc
    simp [hc, StoreCall.isQuery]

/-- C8 witness: fetching details for the absent id 999 signals 404 and
issues only query calls on the store handle. -/
theorem fetch_job_details_not_found_no_mutation_witness :
    stOk.queryFails = false ∧ findJob stOk 999 = none ∧
    ((fetch_job_details 999 stOk).outcome = Outcome.httpError 404 ∧
      ∀ c ∈ (fetch_job_details 999 stOk).calls, c.isQuery = true) :=
  ⟨by decide, by decide,
    fetch_job_details_not_found_no_mutation 999 stOk (by decide) (by decide)⟩

/-- C9: on a successful `schedule_new_job` call, the record handed to the
store's insert and the record handed to refresh are the same Job record
constructed from the request (any insert and any refresh in the trace
carry equal records), and the response is the mapping of that very record
carrying the refreshed generated id. -/
theorem schedule_success_same_record_inserted_and_refreshed
    (req : JobRequest) (st : Store) (h : scheduleSucceeds st) :
    (∀ j j' : Job, StoreCall.insert j ∈ (schedule_new_job req st).calls →
      StoreCall.refresh j' ∈ (schedule_new_job req st).calls → j = j') ∧
    (∃ j : Job, StoreCall.insert j ∈ (schedule_new_job req st).calls ∧
      StoreCall.refresh j ∈ (schedule_new_job req st).calls ∧
      (schedule_new_job req st).outcome =
        Outcome.ok (mapResponse { j with id := st.generatedId })) := by
  obtain ⟨hc, hi, hm, hr⟩ := h
  constructor
  · intro j j' hj hj'
    simp [schedule_new_job, hc, hi, hm, hr] at hj hj'
    rw [hj, hj']
  · refine ⟨mkJob req, ?_, ?_, ?_⟩ <;>
      simp [schedule_new_job, hc, hi, hm, hr]

/-- C9 witness: for the sample request and all-succeeding store, the
inserted and refreshed records coincide and the response carries the
generated id on that record. -/
theorem schedule_success_same_record_inserted_and_refreshed_witness :
    scheduleSucceeds stOk ∧
    ((∀ j j' : Job, StoreCall.insert j ∈ (schedule_new_job reqW stOk).calls →
        StoreCall.refresh j' ∈ (schedule_new_job reqW stOk).calls → j = j') ∧
      (∃ j : Job, StoreCall.insert j ∈ (schedule_new_job reqW stOk).calls ∧
        StoreCall.refresh j ∈ (schedule_new_job reqW stOk).calls ∧
        (schedule_new_job reqW stOk).outcome =
          Outcome.ok (mapResponse { j with id := stOk.generatedId }))) :=
  ⟨by decide,
    schedule_success_same_record_inserted_and_refreshed reqW stOk (by decide)⟩

/-- C10: the two read operations never mutate the store on any path:
for every store state and jobId, every call `fetch_scheduled_jobs` and
`fetch_job_details` issue on the store handle is a query call, never an
insert, commit, refresh or rollback. -/
theorem read_operations_issue_only_queries (st : Store) (jobId : Nat) :
    (∀ c ∈ (fetch_scheduled_jobs st).calls, c.isQuery = true) ∧
    (∀ c ∈ (fetch_job_details jobId st).calls, c.isQuery = true) := by
  constructor
  · intro c hc
    cases hq : st.queryFails <;>
      simp [fetch_scheduled_jobs, hq] at hc <;>
      simp [hc, StoreCall.isQuery]
  · intro c hc
    cases hq : st.queryFails
    · cases hj : findJob st jobId
      · simp [fetch_job_details, hq, hj] at hc
        simp [hc, StoreCall.isQuery]
      · cases hs : findStatus st jobId <;>
          simp [fetch_job_details, hq, hj, hs] at hc <;>
          rcases hc with hc | hc <;> simp [hc, StoreCall.isQuery]
    · simp [fetch_job_details, hq] at hc
      simp [hc, StoreCall.isQuery]

end JobScheduler
